import Mathlib

/-!
Verification of the textual-window library core (window lifecycle, geometry
engine, and window-manager registry) against its natural-language
specification.  The Python sources are shallowly embedded: each Lean
definition mirrors one function or code path of the repository, with machine
integers modelled as Int (Python ints are unbounded) and exceptions modelled
as explicit error results that carry the state at the moment of the raise.
-/

namespace TextualWindow

/-! ## Basic geometry helpers

The library uses textual.geometry.clamp, an external collaborator.  The spec
(section 4.1) defines it as ordinary clamping of a value to an inclusive
interval, which is what every call site relies on (all call sites satisfy
minimum <= maximum).
-/

/-- Clamp a value to the inclusive interval from minimum to maximum. -/
def clamp (value minimum maximum : Int) : Int :=
  if value < minimum then minimum
  else if value > maximum then maximum
  else value

/-! ## Geometry engine: starting position (window.py, _calculate_starting_position) -/

/-- The five starting horizontal positions (window.py STARTING_HORIZONTAL). -/
inductive StartingHorizontal where
  | left
  | centerleft
  | center
  | centerright
  | right
deriving DecidableEq, Repr

/-- The five starting vertical positions (window.py STARTING_VERTICAL). -/
inductive StartingVertical where
  | top
  | uppermiddle
  | middle
  | lowermiddle
  | bottom
deriving DecidableEq, Repr

/-- The starting_horizontals dictionary of Window._calculate_starting_position,
where x is the parent width minus the window width.  Python floor division
(the // operator) is Int.fdiv. -/
def starting_horizontals (x : Int) : StartingHorizontal → Int
  | .left => 0
  | .centerleft => x.fdiv 4
  | .center => x.fdiv 2
  | .centerright => x - x.fdiv 4
  | .right => x

/-- The starting_verticals dictionary of Window._calculate_starting_position. -/
def starting_verticals (y : Int) : StartingVertical → Int
  | .top => 0
  | .uppermiddle => y.fdiv 4
  | .middle => y.fdiv 2
  | .lowermiddle => y - (y.fdiv 4)
  | .bottom => y

/-- Window._calculate_starting_position (window.py lines 463-500): the parent
size minus the starting size gives the free travel (x, y); the starting offset
is the pair of dictionary lookups. -/
def calculate_starting_position (parentW parentH startingW startingH : Int)
    (h : StartingHorizontal) (v : StartingVertical) : Int × Int :=
  let x := parentW - startingW
  let y := parentH - startingH
  (starting_horizontals x h, starting_verticals y v)

/-- Modelled from the spec (section 4.1, starting_offset): the mapping the
spec claims the code computes, written independently from the spec text with
free_x = parent.w - window.w and free_y = parent.h - window.h. -/
def starting_offset_spec (parentW parentH winW winH : Int)
    (h : StartingHorizontal) (v : StartingVertical) : Int × Int :=
  let fx := parentW - winW
  let fy := parentH - winH
  let ox : Int :=
    match h with
    | .left => 0
    | .centerleft => fx.fdiv 4
    | .center => fx.fdiv 2
    | .centerright => fx - fx.fdiv 4
    | .right => fx
  let oy : Int :=
    match v with
    | .top => 0
    | .uppermiddle => fy.fdiv 4
    | .middle => fy.fdiv 2
    | .lowermiddle => fy - fy.fdiv 4
    | .bottom => fy
  (ox, oy)

/-! ## Geometry engine: resize drag (windowcomponents.py, Resizer) -/

/-- The state the Resizer captures on mouse-down (Resizer.on_mouse_down):
the screen position of the pointer and the window size at that moment, plus
the min/max bounds set by set_max_min. -/
structure ResizerState where
  position_on_down : Int × Int
  size_on_down : Int × Int
  min_width : Int
  min_height : Int
  max_width : Int
  max_height : Int
deriving DecidableEq, Repr

/-- Resizer.on_mouse_move (windowcomponents.py lines 262-295): the new window
size is the size captured on mouse-down plus the total delta of the pointer
from the mouse-down position, clamped per axis to the min/max bounds. -/
def resizer_on_mouse_move (r : ResizerState) (screen_offset : Int × Int) : Int × Int :=
  let total_delta := (screen_offset.1 - r.position_on_down.1,
                      screen_offset.2 - r.position_on_down.2)
  let new_size := (r.size_on_down.1 + total_delta.1, r.size_on_down.2 + total_delta.2)
  (clamp new_size.1 r.min_width r.max_width,
   clamp new_size.2 r.min_height r.max_height)

/-- The window size produced by a whole drag: each mouse-move event overwrites
the window size with resizer_on_mouse_move while position_on_down and
size_on_down stay fixed (they are only written in on_mouse_down). -/
def resizer_drag (r : ResizerState) (size0 : Int × Int) (moves : List (Int × Int)) : Int × Int :=
  moves.foldl (fun _ m => resizer_on_mouse_move r m) size0

/-! ## Window lifecycle: the close/minimize transition (window.py) -/

/-- Window mode (window.py MODE literal): permanent or temporary. -/
inductive WindowMode where
  | permanent
  | temporary
deriving DecidableEq, Repr

/-- The observable effect of Window._close_animation (window.py lines
507-532).  A destroy outcome stands for running _execute_remove (unregister
from the manager, post Closed, remove from the DOM); a minimize outcome
stands for hiding the window and posting Minimized; the after-animation
variants run that effect only from the animation-completion callback. -/
inductive CloseAction where
  | destroyNow
  | destroyAfterAnimation
  | minimizeNow
  | minimizeAfterAnimation
  | noEffect
deriving DecidableEq, Repr

/-- Window._close_animation (window.py lines 507-532): if the window is
displayed, the callback (destroy when remove is true, minimize otherwise)
runs after the fade-out animation when animated, immediately otherwise; if
the window is not displayed, a removal call runs the destroy path
immediately and a minimize call does nothing. -/
def close_animation (display animated remove : Bool) : CloseAction :=
  if display then
    if animated then
      if remove then .destroyAfterAnimation else .minimizeAfterAnimation
    else
      if remove then .destroyNow else .minimizeNow
  else
    if remove then .destroyNow else .noEffect

/-- The per-window fields that drive the close/minimize code paths
(window.py Window: window_mode, open_state, display, animated). -/
structure WindowLifecycle where
  window_mode : WindowMode
  open_state : Bool
  display : Bool
  animated : Bool
deriving DecidableEq, Repr

/-- Window.remove_window / Window.close_window (window.py lines 674-681):
unconditionally runs the close animation with remove = True. -/
def remove_window (s : WindowLifecycle) : CloseAction :=
  close_animation s.display s.animated true

/-- Assigning open_state := False (Window.minimize, or the permanent branch
of action_close_window).  The reactive attribute fires watch_open_state only
when the value changes (window.py lines 611-619); the false branch of the
watcher runs the close animation with remove = False. -/
def set_open_state_false (s : WindowLifecycle) : WindowLifecycle × CloseAction :=
  if s.open_state then
    ({ s with open_state := false }, close_animation s.display s.animated false)
  else
    ({ s with open_state := false }, .noEffect)

/-- Window.action_close_window (window.py lines 642-647): temporary windows
run close_window (remove), permanent windows are minimized by setting
open_state to False. -/
def action_close_window (s : WindowLifecycle) : WindowLifecycle × CloseAction :=
  if s.window_mode = .temporary then (s, remove_window s)
  else set_open_state_false s

/-- The close command of the WindowBarMenu (windowbar.py lines 224-228):
temporary windows get remove_window, others get minimize (open_state =
False via Window.minimize). -/
def windowbar_menu_close (s : WindowLifecycle) : WindowLifecycle × CloseAction :=
  if s.window_mode = .temporary then (s, remove_window s)
  else set_open_state_false s

/-- The per-window branch of WindowManager.close_all_windows (manager.py
lines 346-350): temporary windows get remove_window, others get
open_state = False. -/
def close_all_per_window (s : WindowLifecycle) : WindowLifecycle × CloseAction :=
  if s.window_mode = .temporary then (s, remove_window s)
  else set_open_state_false s

/-- Whether a close action destroys the window (runs _execute_remove, which
unregisters it from the manager), now or after the animation. -/
def CloseAction.isDestroy : CloseAction → Bool
  | .destroyNow => true
  | .destroyAfterAnimation => true
  | _ => false

/-! ## Window geometry: maximize / restore (window.py, watch_maximize_state) -/

/-- The geometry-bearing fields of a Window (window.py): the styled size and
offset (conflating styles.width/height with the laid-out size, as the layout
pass makes them equal), the maximize flag, the saved size and offset
snapshots, the maximum size computed by _dom_ready, and the flag set once
the first layout has run (self.initialized in the source, named init_done
here). -/
structure WindowGeometry where
  width : Int
  height : Int
  offset_x : Int
  offset_y : Int
  maximize_state : Bool
  saved_size : Option (Int × Int)
  saved_offset : Option (Int × Int)
  max_width : Int
  max_height : Int
  init_done : Bool
deriving DecidableEq, Repr

/-- Window.clamp_into_parent_area (window.py lines 764-771): once the window
has completed its first layout, clamp the offset so the window rectangle lies
inside the parent area. -/
def clamp_into_parent_area (parentW parentH : Int) (s : WindowGeometry) : WindowGeometry :=
  if s.init_done then
    { s with
      offset_x := clamp s.offset_x 0 (parentW - s.width)
      offset_y := clamp s.offset_y 0 (parentH - s.height) }
  else s

/-- Window.watch_maximize_state (window.py lines 621-636).  On maximize the
current size and offset are snapshotted into saved_size/saved_offset, the
styled size is set to the maximum, and the offset is re-clamped into the
parent after the next refresh.  On restore the assertions require the saved
snapshots to be present (their absence is the assertion failure, modelled as
none); the styled size and offset are restored from them.  The source does
not reset saved_size or saved_offset in the restore branch. -/
def watch_maximize_state (parentW parentH : Int) (s : WindowGeometry) :
    Bool → Option WindowGeometry
  | true =>
    some (clamp_into_parent_area parentW parentH
      { s with
        saved_size := some (s.width, s.height)
        saved_offset := some (s.offset_x, s.offset_y)
        width := s.max_width
        height := s.max_height })
  | false =>
    match s.saved_size, s.saved_offset with
    | some sz, some off =>
        some { s with
          width := sz.1
          height := sz.2
          offset_x := off.1
          offset_y := off.2 }
    | _, _ => none

/-- Assigning the reactive maximize_state attribute (Window.maximize,
Window.restore, Window.toggle_maximize): the attribute is written first and
watch_maximize_state fires only when the value changed. -/
def set_maximize_state (parentW parentH : Int) (s : WindowGeometry) (value : Bool) :
    Option WindowGeometry :=
  if value = s.maximize_state then some s
  else watch_maximize_state parentW parentH { s with maximize_state := value } value

/-! ## The window-manager registry (manager.py, WindowManager)

Registered windows are Python objects; the registry's dict maps ids to
object references and the focus-order list holds object references.  A
Window here is the identity view of such an object: its immutable id, its
window_mode, and a wid standing for the object identity (distinct objects
carry distinct wids).  Mutable per-object state that the registry claims
need (the open flag) lives in a separate store keyed by wid.
-/

/-- Identity view of a window object as seen by the registry. -/
structure Window where
  id : String
  window_mode : WindowMode
  wid : Nat
deriving DecidableEq, Repr

/-- Python dict assignment keyed by id: replace the entry with the same id in
place, or append a new entry. -/
def dict_insert : List Window → Window → List Window
  | [], w => [w]
  | x :: xs, w => if x.id = w.id then w :: xs else x :: dict_insert xs w

/-- Python dict membership test on the keys. -/
def dict_contains (ws : List Window) (i : String) : Bool :=
  ws.any (fun w => w.id = i)

/-- Python dict.pop keyed by id: drop the entry with the given id. -/
def dict_pop : List Window → String → List Window
  | [], _ => []
  | x :: xs, i => if x.id = i then xs else x :: dict_pop xs i

/-- The state of the WindowManager singleton (manager.py __init__): the
windows dict (represented as its list of values, keyed by their ids), the
optional windowbar (represented by the list of ids of the buttons it shows),
the last focused window, the recent focus order, and the three close-all
handshake fields. -/
structure ManagerState where
  windows : List Window
  windowbar : Option (List String)
  last_focused_window : Option Window
  recent_focus_order : List Window
  closing_in_progress : Bool
  num_of_temporary_windows : Nat
  checked_in_closing_windows : Nat
deriving DecidableEq, Repr

/-- The manager state right after construction. -/
def manager_init : ManagerState :=
  { windows := []
    windowbar := none
    last_focused_window := none
    recent_focus_order := []
    closing_in_progress := false
    num_of_temporary_windows := 0
    checked_in_closing_windows := 0 }

/-- The error classes the registry methods can raise. -/
inductive MgrError where
  | invalidId
  | idNotFound
  | notInFocusOrder
  | emptyFocusOrder
deriving DecidableEq, Repr

/-- Result of a registry method: ok with the new state, or an exception
carrying the state at the moment of the raise (Python exceptions leave every
mutation already performed in place). -/
inductive MgrResult where
  | ok (s : ManagerState)
  | err (e : MgrError) (s : ManagerState)
deriving DecidableEq, Repr

/-- WindowManager.register_window (manager.py lines 227-240): a truthy (non
empty) id stores the window in the dict under its id; an empty id raises
ValueError before anything is mutated.  The append to the recent focus order
sits after the if/else and runs only when no exception was raised.  The
source performs no duplicate-id check: an existing entry with the same id is
silently overwritten. -/
def register_window (s : ManagerState) (w : Window) : MgrResult :=
  if w.id ≠ "" then
    let s := { s with windows := dict_insert s.windows w }
    .ok { s with recent_focus_order := s.recent_focus_order ++ [w] }
  else
    .err .invalidId s

/-- The handshake block at the end of WindowManager.unregister_window
(manager.py lines 263-274): while a close-all is in progress, a temporary
window checking in increments the counter, and whenever the counter equals
the snapshotted temporary-window count all three fields reset to idle. -/
def unregister_handshake (s : ManagerState) (w : Window) : ManagerState :=
  if s.closing_in_progress then
    let checked :=
      if w.window_mode = .temporary then s.checked_in_closing_windows + 1
      else s.checked_in_closing_windows
    if checked = s.num_of_temporary_windows then
      { s with
        checked_in_closing_windows := 0
        num_of_temporary_windows := 0
        closing_in_progress := false }
    else
      { s with checked_in_closing_windows := checked }
  else s

/-- WindowManager.unregister_window (manager.py lines 242-274), statement by
statement: pop the dict entry if the id is present (raising ValueError with
nothing mutated otherwise); then list.remove the window from the recent
focus order (Python list.remove raises ValueError when the element is
absent, leaving the already-popped dict in place); then tell the bound
windowbar, if any, to drop the window button; then publish the unregistered
signal (no registry state change); finally run the close-all handshake
block. -/
def unregister_window (s : ManagerState) (w : Window) : MgrResult :=
  if dict_contains s.windows w.id then
    let s := { s with windows := dict_pop s.windows w.id }
    if w ∈ s.recent_focus_order then
      let s := { s with recent_focus_order := s.recent_focus_order.erase w }
      let s :=
        match s.windowbar with
        | some buttons => { s with windowbar := some (buttons.erase w.id) }
        | none => s
      .ok (unregister_handshake s w)
    else
      .err .notInFocusOrder s
  else
    .err .idNotFound s

/-- WindowManager.change_window_focus_order (manager.py lines 288-302): with
a non-empty focus order, list.remove the window (raising ValueError if it is
absent, in which case last_focused_window is not written) and reinsert it at
index 0; with an empty focus order, raise RuntimeError unless a close-all is
in progress.  On the non-raising paths last_focused_window is set last. -/
def change_window_focus_order (s : ManagerState) (w : Window) : MgrResult :=
  if s.recent_focus_order ≠ [] then
    if w ∈ s.recent_focus_order then
      .ok { s with
        recent_focus_order := w :: s.recent_focus_order.erase w
        last_focused_window := some w }
    else
      .err .notInFocusOrder s
  else
    if ¬ s.closing_in_progress then
      .err .emptyFocusOrder s
    else
      .ok { s with last_focused_window := some w }

/-! ## Close-all (manager.py, close_all_windows) over the combined system -/

/-- The registry together with the open flags of the live window objects,
keyed by object identity. -/
structure SysState where
  mgr : ManagerState
  open_of : Nat → Bool

/-- One iteration of the close_all_windows loop: a temporary window gets
remove_window called on it, whose unregistration runs later from the
animation callback (collected as pending); any other window gets its
open_state set to False on the spot. -/
def close_all_step (acc : (Nat → Bool) × List Window) (w : Window) :
    (Nat → Bool) × List Window :=
  if w.window_mode = .temporary then (acc.1, acc.2 ++ [w])
  else ((fun n => if n = w.wid then false else acc.1 n), acc.2)

/-- WindowManager.close_all_windows (manager.py lines 329-350): count the
temporary windows into the snapshot counter, set closing_in_progress, then
iterate over a copy of the dict calling remove_window on temporary windows
(their unregistrations are returned as the pending list, to be run when the
close animations complete) and setting open_state = False on the rest. -/
def close_all_windows (sys : SysState) : SysState × List Window :=
  let numTemp :=
    (sys.mgr.windows.filter (fun w => w.window_mode == WindowMode.temporary)).length
  let windows_copy := sys.mgr.windows
  let mgr := { sys.mgr with
    num_of_temporary_windows := numTemp
    closing_in_progress := true }
  let folded := windows_copy.foldl close_all_step (sys.open_of, [])
  ({ mgr := mgr, open_of := folded.1 }, folded.2)

/-- Run the pending unregistrations (each temporary window's animation
callback ends in _execute_remove, which calls unregister_window) in the
given order. -/
def run_unregistrations (m : ManagerState) (l : List Window) : ManagerState :=
  l.foldl
    (fun acc w =>
      match unregister_window acc w with
      | .ok s => s
      | .err _ s => s) m

/-! ## Registry invariants and reachability -/

/-- The focus-order invariant as the spec states it: the focus order has the
same length as the windows dict, has no duplicate entries, and misses no
registered window. -/
def focus_invariant (s : ManagerState) : Prop :=
  s.recent_focus_order.length = s.windows.length ∧
  s.recent_focus_order.Nodup ∧
  ∀ w ∈ s.windows, w ∈ s.recent_focus_order

instance (s : ManagerState) : Decidable (focus_invariant s) := by
  unfold focus_invariant; infer_instance

/-- Well-formedness of the registry: the focus order is a permutation of the
windows dict values, and the dict keys are distinct (which the dict
structure guarantees). -/
def manager_wf (s : ManagerState) : Prop :=
  s.recent_focus_order.Perm s.windows ∧ (s.windows.map Window.id).Nodup

instance (s : ManagerState) : Decidable (manager_wf s) := by
  unfold manager_wf; infer_instance

/-- Registry states reachable through successful registry operations, with
register_window only ever called for an id not already registered (the
library registers each window object exactly once, from Window.__init__,
and ids are meant to be unique). -/
inductive Reachable : ManagerState → Prop where
  | init : Reachable manager_init
  | reg {s s' : ManagerState} {w : Window} :
      Reachable s → (∀ u ∈ s.windows, u.id ≠ w.id) →
      register_window s w = .ok s' → Reachable s'
  | unreg {s s' : ManagerState} {w : Window} :
      Reachable s → unregister_window s w = .ok s' → Reachable s'
  | focus {s s' : ManagerState} {w : Window} :
      Reachable s → change_window_focus_order s w = .ok s' → Reachable s'

/-! ## Theorems -/

/-- C6: for every parent size, window size and (horizontal, vertical) pair,
the starting offset equals the spec mapping (Left to 0, CenterLeft to
free_x/4, Center to free_x/2, CenterRight to free_x - free_x/4, Right to
free_x, with integer floor division, and analogously vertically); in
particular parent 80x24 with window 20x10 at (Center, Middle) yields
(30, 7). -/
theorem starting_position_matches_spec :
    (∀ (pW pH wW wH : Int) (h : StartingHorizontal) (v : StartingVertical),
      calculate_starting_position pW pH wW wH h v = starting_offset_spec pW pH wW wH h v) ∧
    calculate_starting_position 80 24 20 10 .center .middle = (30, 7) := by
  constructor
  · intro pW pH wW wH h v
    cases h <;> cases v <;> rfl
  · decide

/-- C8: every mouse-move of a resize drag computes the new size from the
size captured at mouse-down plus the cumulative pointer delta (so a whole
drag ends exactly where its last move puts it, independent of the earlier
moves), clamped to the min/max bounds; a (+5,+5) drag from 20x10 with
min 12x6 and max 40x20 yields (25,15), and a (-100,-100) drag from the new
25x15 mouse-down baseline yields (12,6). -/
theorem resize_uses_cumulative_delta :
    (∀ (r : ResizerState) (size0 : Int × Int) (moves : List (Int × Int)) (m : Int × Int),
      resizer_drag r size0 (moves ++ [m]) = resizer_on_mouse_move r m) ∧
    resizer_on_mouse_move ⟨(0, 0), (20, 10), 12, 6, 40, 20⟩ (5, 5) = (25, 15) ∧
    resizer_on_mouse_move ⟨(0, 0), (25, 15), 12, 6, 40, 20⟩ (-100, -100) = (12, 6) := by
  refine ⟨?_, by decide, by decide⟩
  intro r size0 moves m
  simp [resizer_drag, List.foldl_append]

/-- C9: a removal request on a window that is already hidden (display off)
runs the destroy path (unregister, Closed, remove) immediately rather than
waiting for an animation completion, whatever the animated flag, so a second
close on an already-hidden window cannot deadlock. -/
theorem close_when_hidden_destroys_immediately :
    ∀ (s : WindowLifecycle), s.display = false → remove_window s = .destroyNow := by
  intro s h
  simp [remove_window, close_animation, h]

/-- Witness for C9 at a concrete hidden temporary window. -/
theorem close_when_hidden_destroys_immediately_witness :
    remove_window ⟨.temporary, false, false, true⟩ = .destroyNow :=
  close_when_hidden_destroys_immediately ⟨.temporary, false, false, true⟩ rfl

/-- C5 counterexample: calling the public close_window / remove_window API
on a permanent window does destroy it, contrary to the claim that every
requested close operation on a permanent window degrades to a minimize.
A displayed, animated permanent window gets the destroy-after-animation
outcome, and the destroy path (unregister_window) then removes the
permanent window from the registry. -/
theorem remove_window_destroys_permanent :
    remove_window ⟨.permanent, true, true, true⟩ = .destroyAfterAnimation ∧
    (remove_window ⟨.permanent, true, true, true⟩).isDestroy = true ∧
    unregister_window
      { manager_init with
        windows := [⟨"p", .permanent, 0⟩]
        recent_focus_order := [⟨"p", .permanent, 0⟩] }
      ⟨"p", .permanent, 0⟩ = .ok manager_init := by
  refine ⟨rfl, rfl, ?_⟩
  decide

/-- C5 (amended): a permanent window is never destroyed by the close action
(ctrl+w), the windowbar menu close command, or close_all: each of these
degrades to a minimize, leaving open_state false and never running the
destroy path; the direct close_window / remove_window API, however, destroys
regardless of mode. -/
theorem permanent_close_requests_degrade_to_minimize :
    ∀ (s : WindowLifecycle), s.window_mode = .permanent →
      (action_close_window s).2.isDestroy = false ∧
      (action_close_window s).1.open_state = false ∧
      (windowbar_menu_close s).2.isDestroy = false ∧
      (windowbar_menu_close s).1.open_state = false ∧
      (close_all_per_window s).2.isDestroy = false ∧
      (close_all_per_window s).1.open_state = false := by
  intro s h
  rcases s with ⟨mode, o, d, a⟩
  cases mode with
  | permanent => cases o <;> cases d <;> cases a <;> decide
  | temporary => exact nomatch h

/-- Witness for C5 at a concrete open, displayed, animated permanent
window. -/
theorem permanent_close_requests_degrade_to_minimize_witness :
    (action_close_window ⟨.permanent, true, true, true⟩).2.isDestroy = false ∧
    (action_close_window ⟨.permanent, true, true, true⟩).1.open_state = false ∧
    (windowbar_menu_close ⟨.permanent, true, true, true⟩).2.isDestroy = false ∧
    (windowbar_menu_close ⟨.permanent, true, true, true⟩).1.open_state = false ∧
    (close_all_per_window ⟨.permanent, true, true, true⟩).2.isDestroy = false ∧
    (close_all_per_window ⟨.permanent, true, true, true⟩).1.open_state = false :=
  permanent_close_requests_degrade_to_minimize ⟨.permanent, true, true, true⟩ rfl

/-- C7: maximizing a non-maximized window and then restoring it returns the
size and offset exactly to their values before the maximize (with no
intervening viewport resize), and leaves the window non-maximized. -/
theorem maximize_restore_roundtrip :
    ∀ (pW pH : Int) (s : WindowGeometry), s.maximize_state = false →
      ((set_maximize_state pW pH s true).bind
        (fun s₁ => set_maximize_state pW pH s₁ false)).map
          (fun s₂ => (s₂.width, s₂.height, s₂.offset_x, s₂.offset_y, s₂.maximize_state))
      = some (s.width, s.height, s.offset_x, s.offset_y, false) := by
  intro pW pH s h
  rcases s with ⟨w, hgt, ox, oy, mx, ss, so, mw, mh, idone⟩
  simp only at h
  subst h
  cases idone <;> rfl

/-- Witness for C7 at a concrete 20x10 window at offset (3, 4) in an 80x24
parent. -/
theorem maximize_restore_roundtrip_witness :
    ((set_maximize_state 80 24 ⟨20, 10, 3, 4, false, none, none, 80, 24, true⟩ true).bind
      (fun s₁ => set_maximize_state 80 24 s₁ false)).map
        (fun s₂ => (s₂.width, s₂.height, s₂.offset_x, s₂.offset_y, s₂.maximize_state))
    = some (20, 10, 3, 4, false) :=
  maximize_restore_roundtrip 80 24 ⟨20, 10, 3, 4, false, none, none, 80, 24, true⟩ rfl

/-- C4 counterexample: maximizing and then restoring a window leaves
saved_size and saved_offset still populated while maximize_state is false
(the restore branch of watch_maximize_state never resets them), refuting
the claim that the saved rectangle is present if and only if the window is
maximized. -/
theorem restore_leaves_saved_rect_populated :
    (set_maximize_state 80 24 ⟨20, 10, 3, 4, false, none, none, 80, 24, true⟩ true).bind
      (fun s₁ => set_maximize_state 80 24 s₁ false)
    = some ⟨20, 10, 3, 4, false, some (20, 10), some (3, 4), 80, 24, true⟩ := by
  decide

/-- C4 (amended): the saved rectangle is populated whenever the window is
maximized: maximizing snapshots the current size and offset into it, and
every transition preserves that one-sided invariant; but restoring does not
clear it (it keeps whatever was saved), so after the first maximize it stays
populated forever. -/
theorem maximize_saved_rect_invariant :
    ∀ (pW pH : Int) (s : WindowGeometry) (v : Bool) (s' : WindowGeometry),
      set_maximize_state pW pH s v = some s' →
      ((s.maximize_state = true → s.saved_size.isSome ∧ s.saved_offset.isSome) →
        (s'.maximize_state = true → s'.saved_size.isSome ∧ s'.saved_offset.isSome)) ∧
      (v = true → s.maximize_state = false →
        s'.saved_size = some (s.width, s.height) ∧
        s'.saved_offset = some (s.offset_x, s.offset_y)) ∧
      (v = false → s'.saved_size = s.saved_size ∧ s'.saved_offset = s.saved_offset) := by
  intro pW pH s v s' hs
  rcases s with ⟨w, hgt, ox, oy, mx, ss, so, mw, mh, idone⟩
  cases v <;> cases mx <;> rcases ss with _ | sz <;> rcases so with _ | off <;>
      cases idone <;>
      first
        | exact Option.noConfusion hs
        | (cases hs; refine ⟨?_, ?_, ?_⟩ <;> intros <;> simp_all [clamp_into_parent_area])

/-- Witness for C4: the invariant theorem applied to a concrete maximize
transition of a fresh 20x10 window. -/
theorem maximize_saved_rect_invariant_witness :
    (⟨80, 24, 0, 0, true, some (20, 10), some (3, 4), 80, 24, true⟩ :
        WindowGeometry).saved_size =
      some ((⟨20, 10, 3, 4, false, none, none, 80, 24, true⟩ : WindowGeometry).width,
        (⟨20, 10, 3, 4, false, none, none, 80, 24, true⟩ : WindowGeometry).height) ∧
    (⟨80, 24, 0, 0, true, some (20, 10), some (3, 4), 80, 24, true⟩ :
        WindowGeometry).saved_offset =
      some ((⟨20, 10, 3, 4, false, none, none, 80, 24, true⟩ : WindowGeometry).offset_x,
        (⟨20, 10, 3, 4, false, none, none, 80, 24, true⟩ : WindowGeometry).offset_y) :=
  (maximize_saved_rect_invariant 80 24 ⟨20, 10, 3, 4, false, none, none, 80, 24, true⟩ true
    ⟨80, 24, 0, 0, true, some (20, 10), some (3, 4), 80, 24, true⟩ (by decide)).2.1 rfl rfl

/-! ### Dictionary helper lemmas -/

/-- Inserting a window whose id is fresh appends it. -/
theorem dict_insert_fresh (ws : List Window) (w : Window)
    (h : ∀ u ∈ ws, u.id ≠ w.id) : dict_insert ws w = ws ++ [w] := by
  induction ws with
  | nil => rfl
  | cons x xs ih =>
    have hx : x.id ≠ w.id := h x (by simp)
    simp [dict_insert, hx, ih (fun u hu => h u (by simp [hu]))]

/-- The inserted window is in the dict. -/
theorem mem_dict_insert_self (ws : List Window) (w : Window) : w ∈ dict_insert ws w := by
  induction ws with
  | nil => simp [dict_insert]
  | cons x xs ih =>
    by_cases hx : x.id = w.id <;> simp [dict_insert, hx, ih]

/-- An id absent from every entry makes dict_contains false. -/
theorem dict_contains_eq_false (ws : List Window) (i : String)
    (h : ∀ u ∈ ws, u.id ≠ i) : dict_contains ws i = false := by
  simp only [dict_contains, List.any_eq_false, decide_eq_true_eq]
  exact h

/-- A member's id makes dict_contains true. -/
theorem dict_contains_of_mem (ws : List Window) (w : Window)
    (h : w ∈ ws) : dict_contains ws w.id = true := by
  simp only [dict_contains, List.any_eq_true, decide_eq_true_eq]
  exact ⟨w, h, rfl⟩

/-- When the ids in the dict are distinct, popping a member's id removes
exactly that member. -/
theorem dict_pop_of_mem (ws : List Window) (w : Window)
    (hn : (ws.map Window.id).Nodup) (hw : w ∈ ws) :
    dict_pop ws w.id = ws.erase w := by
  induction ws with
  | nil => cases hw
  | cons x xs ih =>
    rw [List.map_cons, List.nodup_cons] at hn
    by_cases hx : x.id = w.id
    · have hxw : x = w := by
        rcases List.mem_cons.mp hw with h | h
        · exact h.symm
        · exact absurd (hx ▸ List.mem_map_of_mem Window.id h) hn.1
      subst hxw
      simp [dict_pop]
    · have hxw : x ≠ w := fun he => hx (he ▸ rfl)
      have hw' : w ∈ xs := by
        rcases List.mem_cons.mp hw with h | h
        · exact absurd h.symm hxw
        · exact h
      rw [List.erase_cons_tail (by simp [hxw])]
      simp [dict_pop, hx, ih hn.2 hw']

/-! ### C1 and C10: register / unregister error handling -/

/-- C1 counterexample: registering a window whose id is already present does
not fail with a duplicate-id error; the call succeeds, silently overwrites
the map entry, and appends the new window to the focus order (leaving the
old object stranded there). -/
theorem register_duplicate_id_is_not_an_error :
    register_window
      { manager_init with
        windows := [⟨"a", .temporary, 0⟩]
        recent_focus_order := [⟨"a", .temporary, 0⟩] }
      ⟨"a", .temporary, 1⟩
    = .ok { manager_init with
        windows := [⟨"a", .temporary, 1⟩]
        recent_focus_order := [⟨"a", .temporary, 0⟩, ⟨"a", .temporary, 1⟩] } := by
  decide

/-- C1 (amended): register_window fails with an invalid-id error when the id
is empty, leaving the registry unchanged; any non-empty id succeeds, storing
the window under its id (overwriting an existing entry with the same id
rather than failing) and appending it to the focus order; when the id is
fresh this is a plain insertion. -/
theorem register_window_behaviour :
    ∀ (s : ManagerState) (w : Window),
      (w.id = "" → register_window s w = .err .invalidId s) ∧
      (w.id ≠ "" →
        register_window s w =
          .ok { s with
            windows := dict_insert s.windows w
            recent_focus_order := s.recent_focus_order ++ [w] } ∧
        w ∈ dict_insert s.windows w ∧
        ((∀ u ∈ s.windows, u.id ≠ w.id) → dict_insert s.windows w = s.windows ++ [w])) := by
  intro s w
  constructor
  · intro h
    simp [register_window, h]
  · intro h
    refine ⟨?_, mem_dict_insert_self s.windows w, dict_insert_fresh s.windows w⟩
    simp [register_window, h]

/-- Witness for C1: an empty id is rejected with the registry unchanged, and
a fresh id is inserted and appended. -/
theorem register_window_behaviour_witness :
    register_window manager_init ⟨"", .temporary, 0⟩ = .err .invalidId manager_init ∧
    register_window manager_init ⟨"a", .temporary, 0⟩ =
      .ok { manager_init with
        windows := [⟨"a", .temporary, 0⟩]
        recent_focus_order := [⟨"a", .temporary, 0⟩] } :=
  ⟨(register_window_behaviour manager_init ⟨"", .temporary, 0⟩).1 rfl,
   ((register_window_behaviour manager_init ⟨"a", .temporary, 0⟩).2 (by decide)).1⟩

/-- C10: unregistering a window whose id is not in the windows map raises
the not-found error with the registry state exactly as it was before the
call: the windows map, focus order, bound bar and handshake counters are all
unchanged (the error result carries the state at the raise, and nothing was
mutated before it). -/
theorem unregister_absent_id_atomic :
    ∀ (s : ManagerState) (w : Window),
      (∀ u ∈ s.windows, u.id ≠ w.id) →
      unregister_window s w = .err .idNotFound s := by
  intro s w h
  simp [unregister_window, dict_contains_eq_false s.windows w.id h]

/-- Witness for C10 on the empty registry. -/
theorem unregister_absent_id_atomic_witness :
    unregister_window manager_init ⟨"a", .temporary, 0⟩ = .err .idNotFound manager_init :=
  unregister_absent_id_atomic manager_init ⟨"a", .temporary, 0⟩ (by decide)

/-! ### Characterizing the successful registry operations -/

/-- The handshake block never touches the windows dict or the focus order. -/
theorem unregister_handshake_fields (s : ManagerState) (w : Window) :
    (unregister_handshake s w).windows = s.windows ∧
    (unregister_handshake s w).recent_focus_order = s.recent_focus_order := by
  unfold unregister_handshake
  split
  · dsimp only
    split <;> split <;> exact ⟨rfl, rfl⟩
  · exact ⟨rfl, rfl⟩

/-- Value of the handshake block on each path. -/
theorem unregister_handshake_char (s : ManagerState) (w : Window) :
    (s.closing_in_progress = false → unregister_handshake s w = s) ∧
    (s.closing_in_progress = true → w.window_mode = .temporary →
      (s.checked_in_closing_windows + 1 = s.num_of_temporary_windows →
        unregister_handshake s w =
          { s with
            closing_in_progress := false
            num_of_temporary_windows := 0
            checked_in_closing_windows := 0 }) ∧
      (s.checked_in_closing_windows + 1 ≠ s.num_of_temporary_windows →
        unregister_handshake s w =
          { s with checked_in_closing_windows := s.checked_in_closing_windows + 1 })) := by
  refine ⟨fun h => ?_, fun hc ht => ⟨fun he => ?_, fun hne => ?_⟩⟩ <;>
    simp_all [unregister_handshake]

/-- A window absent from the focus order cannot be unregistered cleanly:
either the id lookup fails first, or the list removal raises with the dict
entry already popped. -/
theorem unregister_not_in_order (s : ManagerState) (w : Window)
    (hord : w ∉ s.recent_focus_order) :
    unregister_window s w = .err .idNotFound s ∨
    unregister_window s w =
      .err .notInFocusOrder { s with windows := dict_pop s.windows w.id } := by
  unfold unregister_window
  by_cases hc : dict_contains s.windows w.id = true
  · right
    rw [if_pos hc,
      if_neg (show ¬ w ∈ ({ s with windows := dict_pop s.windows w.id } :
        ManagerState).recent_focus_order from hord)]
  · left
    rw [if_neg hc]

/-- On a well-formed registry, unregistering a registered window succeeds,
yielding the handshake applied to the state with the window erased from the
dict and the focus order and its button dropped from the bar. -/
theorem unregister_ok_of_mem (s : ManagerState) (w : Window)
    (hwf : manager_wf s) (hw : w ∈ s.windows) :
    unregister_window s w = .ok (unregister_handshake
      { windows := s.windows.erase w
        windowbar := s.windowbar.map (fun b => b.erase w.id)
        last_focused_window := s.last_focused_window
        recent_focus_order := s.recent_focus_order.erase w
        closing_in_progress := s.closing_in_progress
        num_of_temporary_windows := s.num_of_temporary_windows
        checked_in_closing_windows := s.checked_in_closing_windows } w) := by
  have hord : w ∈ s.recent_focus_order := hwf.1.mem_iff.mpr hw
  obtain ⟨hperm, hids⟩ := hwf
  obtain ⟨ws, bar, last, order, cip, nt, ch⟩ := s
  simp only at hw hord hids ⊢
  cases bar <;>
    simp_all [unregister_window, dict_contains_of_mem ws w hw,
      dict_pop_of_mem ws w hids hw, hord]

/-- Existence form of the previous lemma. -/
theorem unregister_ok_exists (s : ManagerState) (w : Window)
    (hwf : manager_wf s) (hw : w ∈ s.windows) :
    ∃ s', unregister_window s w = .ok s' :=
  ⟨_, unregister_ok_of_mem s w hwf hw⟩

/-- On a well-formed registry, a successful unregister_window call removed
exactly the given window from the dict and the focus order, left the
last-focused pointer alone, and ran the handshake block: outside a close-all
the counters are untouched; during one, a temporary window increments the
check-in counter, resetting all three fields when it reaches the snapshotted
count. -/
theorem unregister_ok_fields (s : ManagerState) (w : Window) (s' : ManagerState)
    (hwf : manager_wf s) (hok : unregister_window s w = .ok s') :
    w ∈ s.windows ∧
    s'.windows = s.windows.erase w ∧
    s'.recent_focus_order = s.recent_focus_order.erase w ∧
    s'.last_focused_window = s.last_focused_window ∧
    (s.closing_in_progress = false →
      s'.closing_in_progress = false ∧
      s'.num_of_temporary_windows = s.num_of_temporary_windows ∧
      s'.checked_in_closing_windows = s.checked_in_closing_windows) ∧
    (s.closing_in_progress = true → w.window_mode = .temporary →
      (s.checked_in_closing_windows + 1 = s.num_of_temporary_windows →
        s'.closing_in_progress = false ∧
        s'.num_of_temporary_windows = 0 ∧
        s'.checked_in_closing_windows = 0) ∧
      (s.checked_in_closing_windows + 1 ≠ s.num_of_temporary_windows →
        s'.closing_in_progress = true ∧
        s'.num_of_temporary_windows = s.num_of_temporary_windows ∧
        s'.checked_in_closing_windows = s.checked_in_closing_windows + 1)) := by
  have hord : w ∈ s.recent_focus_order := by
    by_contra hord
    rcases unregister_not_in_order s w hord with h | h <;>
      rw [h] at hok <;> exact MgrResult.noConfusion hok
  have hw : w ∈ s.windows := hwf.1.mem_iff.mp hord
  have hok' : s' = unregister_handshake
      { windows := s.windows.erase w
        windowbar := s.windowbar.map (fun b => b.erase w.id)
        last_focused_window := s.last_focused_window
        recent_focus_order := s.recent_focus_order.erase w
        closing_in_progress := s.closing_in_progress
        num_of_temporary_windows := s.num_of_temporary_windows
        checked_in_closing_windows := s.checked_in_closing_windows } w := by
    obtain ⟨hperm, hids⟩ := hwf
    obtain ⟨ws, bar, last, order, cip, nt, ch⟩ := s
    simp only at hids hw hord
    cases bar <;>
      simp_all [unregister_window, dict_contains_of_mem ws w hw,
        dict_pop_of_mem ws w hids hw, hord]
  subst hok'
  set r : ManagerState :=
    { windows := s.windows.erase w
      windowbar := s.windowbar.map (fun b => b.erase w.id)
      last_focused_window := s.last_focused_window
      recent_focus_order := s.recent_focus_order.erase w
      closing_in_progress := s.closing_in_progress
      num_of_temporary_windows := s.num_of_temporary_windows
      checked_in_closing_windows := s.checked_in_closing_windows } with hr
  have hfields := unregister_handshake_fields r w
  have hchar := unregister_handshake_char r w
  refine ⟨hw, by rw [hfields.1], by rw [hfields.2], ?_, ?_, ?_⟩
  · -- last_focused is untouched by the handshake on every path
    unfold unregister_handshake
    split
    · dsimp only
      split <;> split <;> rfl
    · rfl
  · intro hcf
    rw [hchar.1 hcf]
    exact ⟨hcf, rfl, rfl⟩
  · intro hct ht
    refine ⟨fun he => ?_, fun hne => ?_⟩
    · rw [(hchar.2 hct ht).1 he]
      exact ⟨rfl, rfl, rfl⟩
    · rw [(hchar.2 hct ht).2 hne]
      exact ⟨hct, rfl, rfl⟩

/-- A successful register_window call had a non-empty id and performed the
dict insertion plus the focus-order append. -/
theorem register_ok_inv (s : ManagerState) (w : Window) (s' : ManagerState)
    (hok : register_window s w = .ok s') :
    w.id ≠ "" ∧
    s' = { s with
      windows := dict_insert s.windows w
      recent_focus_order := s.recent_focus_order ++ [w] } := by
  unfold register_window at hok
  by_cases h : w.id = ""
  · rw [if_neg (by simp [h])] at hok
    exact MgrResult.noConfusion hok
  · rw [if_pos h] at hok
    cases hok
    exact ⟨h, rfl⟩

/-- A successful change_window_focus_order call either moved a present
window to the front of a non-empty focus order, or (during a close-all with
an empty focus order) only set the last-focused pointer. -/
theorem change_focus_ok_inv (s : ManagerState) (w : Window) (s' : ManagerState)
    (hok : change_window_focus_order s w = .ok s') :
    (w ∈ s.recent_focus_order ∧
      s' = { s with
        recent_focus_order := w :: s.recent_focus_order.erase w
        last_focused_window := some w }) ∨
    (s.recent_focus_order = [] ∧ s' = { s with last_focused_window := some w }) := by
  unfold change_window_focus_order at hok
  by_cases h1 : s.recent_focus_order = []
  · rw [if_neg (by simp [h1])] at hok
    by_cases h2 : s.closing_in_progress
    · rw [if_neg (by simp [h2])] at hok
      cases hok
      exact .inr ⟨h1, rfl⟩
    · rw [if_pos (by simp [h2])] at hok
      exact MgrResult.noConfusion hok
  · rw [if_pos h1] at hok
    by_cases h2 : w ∈ s.recent_focus_order
    · rw [if_pos h2] at hok
      cases hok
      exact .inl ⟨h2, rfl⟩
    · rw [if_neg h2] at hok
      exact MgrResult.noConfusion hok

/-! ### Well-formedness preservation and the focus-order invariant (C2) -/

/-- Well-formedness survives a successful unregister. -/
theorem manager_wf_unregister (s : ManagerState) (w : Window) (s' : ManagerState)
    (hwf : manager_wf s) (hok : unregister_window s w = .ok s') :
    manager_wf s' := by
  obtain ⟨_, hwin, hord, _⟩ := unregister_ok_fields s w s' hwf hok
  constructor
  · rw [hwin, hord]
    exact hwf.1.erase w
  · rw [hwin]
    exact hwf.2.sublist ((List.erase_sublist w s.windows).map Window.id)

/-- Well-formedness survives a successful register of a fresh id. -/
theorem manager_wf_register (s : ManagerState) (w : Window) (s' : ManagerState)
    (hwf : manager_wf s) (hfresh : ∀ u ∈ s.windows, u.id ≠ w.id)
    (hok : register_window s w = .ok s') :
    manager_wf s' := by
  obtain ⟨-, rfl⟩ := register_ok_inv s w s' hok
  constructor
  · rw [show ({ s with
        windows := dict_insert s.windows w
        recent_focus_order := s.recent_focus_order ++ [w] } :
          ManagerState).windows = dict_insert s.windows w from rfl,
      dict_insert_fresh s.windows w hfresh]
    exact hwf.1.append_right [w]
  · rw [show ({ s with
        windows := dict_insert s.windows w
        recent_focus_order := s.recent_focus_order ++ [w] } :
          ManagerState).windows = dict_insert s.windows w from rfl,
      dict_insert_fresh s.windows w hfresh]
    have hnotmem : w.id ∉ s.windows.map Window.id := by
      intro hmem
      obtain ⟨u, hu, hui⟩ := List.mem_map.mp hmem
      exact hfresh u hu hui
    rw [List.map_append]
    simpa using List.Nodup.concat hnotmem hwf.2

/-- Well-formedness survives a successful focus-order update. -/
theorem manager_wf_focus (s : ManagerState) (w : Window) (s' : ManagerState)
    (hwf : manager_wf s) (hok : change_window_focus_order s w = .ok s') :
    manager_wf s' := by
  rcases change_focus_ok_inv s w s' hok with ⟨hmem, rfl⟩ | ⟨-, rfl⟩
  · exact ⟨((List.perm_cons_erase hmem).symm).trans hwf.1, hwf.2⟩
  · exact hwf

/-- Every reachable registry state is well-formed. -/
theorem reachable_manager_wf : ∀ {s : ManagerState}, Reachable s → manager_wf s := by
  intro s h
  induction h with
  | init => exact ⟨by decide, by decide⟩
  | reg hr hfresh hok ih => exact manager_wf_register _ _ _ ih hfresh hok
  | unreg hr hok ih => exact manager_wf_unregister _ _ _ ih hok
  | focus hr hok ih => exact manager_wf_focus _ _ _ ih hok

/-- Well-formedness implies the spec's focus-order invariant. -/
theorem focus_invariant_of_wf (s : ManagerState) (hwf : manager_wf s) :
    focus_invariant s := by
  have hwn : s.windows.Nodup := List.Nodup.of_map Window.id hwf.2
  exact ⟨hwf.1.length_eq, hwf.1.nodup_iff.mpr hwn, fun w hw => hwf.1.mem_iff.mpr hw⟩

/-- C2 counterexample: the invariant is not preserved by register_window
when the id is already present.  From the reachable one-window state,
registering a second window with the same id succeeds but leaves a
focus order of length 2 over a dict of size 1 (the overwritten object is
stranded in the focus order), violating the invariant. -/
theorem duplicate_register_breaks_focus_invariant :
    Reachable { manager_init with
      windows := [⟨"a", .temporary, 0⟩]
      recent_focus_order := [⟨"a", .temporary, 0⟩] } ∧
    register_window
      { manager_init with
        windows := [⟨"a", .temporary, 0⟩]
        recent_focus_order := [⟨"a", .temporary, 0⟩] }
      ⟨"a", .temporary, 1⟩
    = .ok { manager_init with
        windows := [⟨"a", .temporary, 1⟩]
        recent_focus_order := [⟨"a", .temporary, 0⟩, ⟨"a", .temporary, 1⟩] } ∧
    ¬ focus_invariant { manager_init with
        windows := [⟨"a", .temporary, 1⟩]
        recent_focus_order := [⟨"a", .temporary, 0⟩, ⟨"a", .temporary, 1⟩] } :=
  ⟨Reachable.reg (w := ⟨"a", .temporary, 0⟩) Reachable.init (by decide) (by decide),
   by decide, by decide⟩

/-- C2 (amended): in every registry state reachable through successful
operations in which register_window is only called with ids not already
registered, the focus order contains exactly the registered windows: equal
length, no duplicates, and no registered window missing (register_window
with an already-present id breaks the invariant, see the counterexample;
unregister and focus-order updates preserve it unconditionally). -/
theorem reachable_focus_invariant :
    ∀ (s : ManagerState), Reachable s → focus_invariant s :=
  fun s h => focus_invariant_of_wf s (reachable_manager_wf h)

/-- Witness for C2: the initial state is reachable and satisfies the
invariant. -/
theorem reachable_focus_invariant_witness : focus_invariant manager_init :=
  reachable_focus_invariant manager_init Reachable.init

/-! ### The close-all handshake (C3) -/

/-- The close_all_windows loop collects exactly the temporary windows, in
order, as its pending removals. -/
theorem close_all_fold_pending :
    ∀ (ws : List Window) (f : Nat → Bool) (acc : List Window),
      (ws.foldl close_all_step (f, acc)).2 =
        acc ++ ws.filter (fun w => w.window_mode == WindowMode.temporary) := by
  intro ws
  induction ws with
  | nil => simp
  | cons x xs ih =>
    intro f acc
    by_cases hx : x.window_mode = WindowMode.temporary
    · simp [close_all_step, hx, ih]
    · simp [close_all_step, hx, ih]

/-- Once a wid's open flag has been written false, the rest of the loop
keeps it false (the loop only ever writes false). -/
theorem close_all_step_temp (f : Nat → Bool) (acc : List Window) (w : Window)
    (h : w.window_mode = WindowMode.temporary) :
    close_all_step (f, acc) w = (f, acc ++ [w]) := by
  simp [close_all_step, h]

/-- Reduction of one loop step on a non-temporary window. -/
theorem close_all_step_perm (f : Nat → Bool) (acc : List Window) (w : Window)
    (h : ¬ w.window_mode = WindowMode.temporary) :
    close_all_step (f, acc) w = ((fun n => if n = w.wid then false else f n), acc) := by
  simp [close_all_step, h]

theorem close_all_fold_keeps_false :
    ∀ (ws : List Window) (f : Nat → Bool) (acc : List Window) (n : Nat),
      f n = false → (ws.foldl close_all_step (f, acc)).1 n = false := by
  intro ws
  induction ws with
  | nil => intro f acc n h; simpa using h
  | cons x xs ih =>
    intro f acc n h
    rw [List.foldl_cons]
    by_cases hx : x.window_mode = WindowMode.temporary
    · rw [close_all_step_temp f acc x hx]
      exact ih _ _ n h
    · rw [close_all_step_perm f acc x hx]
      refine ih _ _ n ?_
      by_cases hn : n = x.wid <;> simp [hn, h]

/-- The close_all_windows loop sets the open flag of every non-temporary
window it visits to false. -/
theorem close_all_fold_sets_permanent_false :
    ∀ (ws : List Window) (f : Nat → Bool) (acc : List Window) (w : Window),
      w ∈ ws → w.window_mode ≠ WindowMode.temporary →
      (ws.foldl close_all_step (f, acc)).1 w.wid = false := by
  intro ws
  induction ws with
  | nil => intro f acc w h; cases h
  | cons x xs ih =>
    intro f acc w hw hmode
    rw [List.foldl_cons]
    rcases List.mem_cons.mp hw with rfl | hw'
    · rw [close_all_step_perm f acc w hmode]
      refine close_all_fold_keeps_false xs _ _ w.wid ?_
      simp
    · by_cases hx : x.window_mode = WindowMode.temporary
      · rw [close_all_step_temp f acc x hx]
        exact ih _ _ w hw' hmode
      · rw [close_all_step_perm f acc x hx]
        exact ih _ _ w hw' hmode

/-- Core induction for the close-all handshake: running a non-empty batch of
pending unregistrations of distinct temporary registered windows, while a
close-all is in progress whose snapshot count equals the already-checked-in
count plus the batch size, drains the batch, resets all three handshake
fields to idle, and removes exactly the batch from the dict. -/
theorem run_unregs_core :
    ∀ (l : List Window) (m : ManagerState),
      manager_wf m →
      m.closing_in_progress = true →
      l ≠ [] →
      l.Nodup →
      (∀ w ∈ l, w.window_mode = WindowMode.temporary ∧ w ∈ m.windows) →
      m.num_of_temporary_windows = m.checked_in_closing_windows + l.length →
      (run_unregistrations m l).closing_in_progress = false ∧
      (run_unregistrations m l).num_of_temporary_windows = 0 ∧
      (run_unregistrations m l).checked_in_closing_windows = 0 ∧
      manager_wf (run_unregistrations m l) ∧
      (∀ u, u ∈ (run_unregistrations m l).windows ↔ (u ∈ m.windows ∧ u ∉ l)) := by
  intro l
  induction l with
  | nil => intro m _ _ hne; exact absurd rfl hne
  | cons w l ih =>
    intro m hwf hcip _ hnd hmem hcount
    have hwin : List.Nodup m.windows := List.Nodup.of_map Window.id hwf.2
    obtain ⟨hwt, hwm⟩ := hmem w (by simp)
    obtain ⟨s', hok⟩ := unregister_ok_exists m w hwf hwm
    obtain ⟨-, hwins, hords, -, -, hhs⟩ := unregister_ok_fields m w s' hwf hok
    have hwf' : manager_wf s' := manager_wf_unregister m w s' hwf hok
    have hrun : run_unregistrations m (w :: l) = run_unregistrations s' l := by
      simp [run_unregistrations, hok]
    have hmem_erase : ∀ u, u ∈ s'.windows ↔ (u ∈ m.windows ∧ u ≠ w) := by
      intro u
      rw [hwins, hwin.mem_erase_iff]
      exact ⟨fun h => ⟨h.2, h.1⟩, fun h => ⟨h.2, h.1⟩⟩
    cases l with
    | nil =>
      -- last pending window: the counter reaches the snapshot and resets
      have hfin := (hhs hcip hwt).1 (by simpa using hcount.symm)
      rw [hrun]
      refine ⟨hfin.1, hfin.2.1, hfin.2.2, hwf', ?_⟩
      intro u
      simpa using hmem_erase u
    | cons w' l' =>
      -- more pending windows: no reset yet, counter steps by one
      have hne : m.checked_in_closing_windows + 1 ≠ m.num_of_temporary_windows := by
        rw [hcount]
        simp only [List.length_cons]
        omega
      have hstep := (hhs hcip hwt).2 hne
      have hnd' : (w' :: l').Nodup := (List.nodup_cons.mp hnd).2
      have hwl : w ∉ (w' :: l') := (List.nodup_cons.mp hnd).1
      have ihres := ih s' hwf' hstep.1 (by simp) hnd'
        (fun u hu => ⟨(hmem u (List.mem_cons_of_mem w hu)).1,
          (hmem_erase u).mpr ⟨(hmem u (List.mem_cons_of_mem w hu)).2,
            fun he => hwl (he ▸ hu)⟩⟩)
        (by
          rw [hstep.2.1, hstep.2.2, hcount]
          simp only [List.length_cons]
          omega)
      rw [hrun]
      refine ⟨ihres.1, ihres.2.1, ihres.2.2.1, ihres.2.2.2.1, ?_⟩
      intro u
      rw [ihres.2.2.2.2 u, hmem_erase u]
      constructor
      · rintro ⟨⟨hu, hne'⟩, hnl⟩
        exact ⟨hu, by simp [hne', hnl]⟩
      · rintro ⟨hu, hnl⟩
        simp only [List.mem_cons, not_or] at hnl
        exact ⟨⟨hu, hnl.1⟩, by simp [hnl.2]⟩

/-- C3 counterexample: close_all on a registry holding a single permanent
window (idle handshake counters) leaves closing_in_progress stuck at true
after all (zero) resulting unregistrations have run, because the reset only
ever executes inside unregister_window: the handshake fields end at
(true, 0, 0) instead of the idle (false, 0, 0). -/
theorem close_all_without_temporaries_never_resets :
    (run_unregistrations
      (close_all_windows
        ⟨{ manager_init with
            windows := [⟨"p", .permanent, 0⟩]
            recent_focus_order := [⟨"p", .permanent, 0⟩] },
          fun _ => true⟩).1.mgr
      (close_all_windows
        ⟨{ manager_init with
            windows := [⟨"p", .permanent, 0⟩]
            recent_focus_order := [⟨"p", .permanent, 0⟩] },
          fun _ => true⟩).2).closing_in_progress = true ∧
    (run_unregistrations
      (close_all_windows
        ⟨{ manager_init with
            windows := [⟨"p", .permanent, 0⟩]
            recent_focus_order := [⟨"p", .permanent, 0⟩] },
          fun _ => true⟩).1.mgr
      (close_all_windows
        ⟨{ manager_init with
            windows := [⟨"p", .permanent, 0⟩]
            recent_focus_order := [⟨"p", .permanent, 0⟩] },
          fun _ => true⟩).2).num_of_temporary_windows = 0 ∧
    (run_unregistrations
      (close_all_windows
        ⟨{ manager_init with
            windows := [⟨"p", .permanent, 0⟩]
            recent_focus_order := [⟨"p", .permanent, 0⟩] },
          fun _ => true⟩).1.mgr
      (close_all_windows
        ⟨{ manager_init with
            windows := [⟨"p", .permanent, 0⟩]
            recent_focus_order := [⟨"p", .permanent, 0⟩] },
          fun _ => true⟩).2).checked_in_closing_windows = 0 :=
  ⟨rfl, rfl, rfl⟩

/-- C3 (amended): starting from a well-formed registry with idle check-in
counter that holds at least one temporary window, close_all snapshots the
temporary count, raises closing_in_progress, and hands every temporary
window its removal; after the resulting unregistrations have all run (in any
order), each temporary unregistration having incremented checked_in, the
counter reaches the snapshot and all three handshake fields return to idle
(false, 0, 0): no temporary window remains registered, exactly the permanent
windows remain, and every permanent window's open flag was set false. -/
theorem close_all_completes_handshake :
    ∀ (sys : SysState) (l : List Window),
      manager_wf sys.mgr →
      sys.mgr.checked_in_closing_windows = 0 →
      (∃ w ∈ sys.mgr.windows, w.window_mode = WindowMode.temporary) →
      List.Perm l (close_all_windows sys).2 →
      (run_unregistrations (close_all_windows sys).1.mgr l).closing_in_progress = false ∧
      (run_unregistrations (close_all_windows sys).1.mgr l).num_of_temporary_windows = 0 ∧
      (run_unregistrations (close_all_windows sys).1.mgr l).checked_in_closing_windows = 0 ∧
      (∀ u, u ∈ (run_unregistrations (close_all_windows sys).1.mgr l).windows ↔
        (u ∈ sys.mgr.windows ∧ u.window_mode = WindowMode.permanent)) ∧
      (∀ u ∈ sys.mgr.windows, u.window_mode = WindowMode.permanent →
        (close_all_windows sys).1.open_of u.wid = false) := by
  intro sys l hwf hchk hex hlp
  have hpend : (close_all_windows sys).2 =
      sys.mgr.windows.filter (fun w => w.window_mode == WindowMode.temporary) := by
    simpa using close_all_fold_pending sys.mgr.windows sys.open_of []
  have hwn : sys.mgr.windows.Nodup := List.Nodup.of_map Window.id hwf.2
  have hpend_nodup : (close_all_windows sys).2.Nodup := by
    rw [hpend]; exact hwn.filter _
  have hpend_ne : (close_all_windows sys).2 ≠ [] := by
    obtain ⟨w, hwmem, hwt⟩ := hex
    intro hnil
    rw [hpend] at hnil
    have : w ∈ sys.mgr.windows.filter (fun w => w.window_mode == WindowMode.temporary) :=
      List.mem_filter.mpr ⟨hwmem, by simp [hwt]⟩
    rw [hnil] at this
    cases this
  have hwf0 : manager_wf (close_all_windows sys).1.mgr := ⟨hwf.1, hwf.2⟩
  have hcore := run_unregs_core l (close_all_windows sys).1.mgr hwf0 rfl
    (fun hnil => hpend_ne (List.nil_perm.mp (hnil ▸ hlp)))
    (hlp.nodup_iff.mpr hpend_nodup)
    (fun w hw => by
      have hwp : w ∈ (close_all_windows sys).2 := hlp.mem_iff.mp hw
      rw [hpend] at hwp
      obtain ⟨hmem, hmode⟩ := List.mem_filter.mp hwp
      exact ⟨by simpa using hmode, hmem⟩)
    (by
      have h1 : (close_all_windows sys).1.mgr.num_of_temporary_windows =
          (sys.mgr.windows.filter
            (fun w => w.window_mode == WindowMode.temporary)).length := rfl
      have h2 : (close_all_windows sys).1.mgr.checked_in_closing_windows = 0 := hchk
      rw [h1, h2, ← hpend, hlp.length_eq]
      omega)
  refine ⟨hcore.1, hcore.2.1, hcore.2.2.1, ?_, ?_⟩
  · intro u
    rw [hcore.2.2.2.2 u]
    constructor
    · rintro ⟨hu, hnl⟩
      refine ⟨hu, ?_⟩
      have hnt : ¬ u.window_mode = WindowMode.temporary := by
        intro ht
        exact hnl (hlp.mem_iff.mpr
          (hpend ▸ List.mem_filter.mpr ⟨hu, by simp [ht]⟩))
      cases hmode : u.window_mode
      · rfl
      · exact absurd hmode hnt
    · rintro ⟨hu, hup⟩
      refine ⟨hu, fun hl => ?_⟩
      have hupend := hlp.mem_iff.mp hl
      rw [hpend] at hupend
      have := (List.mem_filter.mp hupend).2
      rw [hup] at this
      cases this
  · intro u hu hup
    exact close_all_fold_sets_permanent_false sys.mgr.windows sys.open_of [] u hu
      (by simp [hup])

/-- Witness for C3: the two-window fixture (one temporary, one permanent)
with the pending removals run in snapshot order: the handshake returns to
idle, the temporary window is gone, the permanent one stays with its open
flag cleared. -/
theorem close_all_completes_handshake_witness :
    (run_unregistrations
      (close_all_windows
        ⟨{ manager_init with
            windows := [⟨"t", .temporary, 0⟩, ⟨"p", .permanent, 1⟩]
            recent_focus_order := [⟨"t", .temporary, 0⟩, ⟨"p", .permanent, 1⟩] },
          fun _ => true⟩).1.mgr
      (close_all_windows
        ⟨{ manager_init with
            windows := [⟨"t", .temporary, 0⟩, ⟨"p", .permanent, 1⟩]
            recent_focus_order := [⟨"t", .temporary, 0⟩, ⟨"p", .permanent, 1⟩] },
          fun _ => true⟩).2).closing_in_progress = false ∧
    (run_unregistrations
      (close_all_windows
        ⟨{ manager_init with
            windows := [⟨"t", .temporary, 0⟩, ⟨"p", .permanent, 1⟩]
            recent_focus_order := [⟨"t", .temporary, 0⟩, ⟨"p", .permanent, 1⟩] },
          fun _ => true⟩).1.mgr
      (close_all_windows
        ⟨{ manager_init with
            windows := [⟨"t", .temporary, 0⟩, ⟨"p", .permanent, 1⟩]
            recent_focus_order := [⟨"t", .temporary, 0⟩, ⟨"p", .permanent, 1⟩] },
          fun _ => true⟩).2).num_of_temporary_windows = 0 ∧
    (run_unregistrations
      (close_all_windows
        ⟨{ manager_init with
            windows := [⟨"t", .temporary, 0⟩, ⟨"p", .permanent, 1⟩]
            recent_focus_order := [⟨"t", .temporary, 0⟩, ⟨"p", .permanent, 1⟩] },
          fun _ => true⟩).1.mgr
      (close_all_windows
        ⟨{ manager_init with
            windows := [⟨"t", .temporary, 0⟩, ⟨"p", .permanent, 1⟩]
            recent_focus_order := [⟨"t", .temporary, 0⟩, ⟨"p", .permanent, 1⟩] },
          fun _ => true⟩).2).checked_in_closing_windows = 0 ∧
    ((⟨"p", .permanent, 1⟩ : Window) ∈ (run_unregistrations
      (close_all_windows
        ⟨{ manager_init with
            windows := [⟨"t", .temporary, 0⟩, ⟨"p", .permanent, 1⟩]
            recent_focus_order := [⟨"t", .temporary, 0⟩, ⟨"p", .permanent, 1⟩] },
          fun _ => true⟩).1.mgr
      (close_all_windows
        ⟨{ manager_init with
            windows := [⟨"t", .temporary, 0⟩, ⟨"p", .permanent, 1⟩]
            recent_focus_order := [⟨"t", .temporary, 0⟩, ⟨"p", .permanent, 1⟩] },
          fun _ => true⟩).2).windows ↔
      ((⟨"p", .permanent, 1⟩ : Window) ∈
        [(⟨"t", .temporary, 0⟩ : Window), ⟨"p", .permanent, 1⟩] ∧
        (⟨"p", .permanent, 1⟩ : Window).window_mode = WindowMode.permanent)) ∧
    (close_all_windows
      ⟨{ manager_init with
          windows := [⟨"t", .temporary, 0⟩, ⟨"p", .permanent, 1⟩]
          recent_focus_order := [⟨"t", .temporary, 0⟩, ⟨"p", .permanent, 1⟩] },
        fun _ => true⟩).1.open_of 1 = false := by
  have h := close_all_completes_handshake
    ⟨{ manager_init with
        windows := [⟨"t", .temporary, 0⟩, ⟨"p", .permanent, 1⟩]
        recent_focus_order := [⟨"t", .temporary, 0⟩, ⟨"p", .permanent, 1⟩] },
      fun _ => true⟩
    (close_all_windows
      ⟨{ manager_init with
          windows := [⟨"t", .temporary, 0⟩, ⟨"p", .permanent, 1⟩]
          recent_focus_order := [⟨"t", .temporary, 0⟩, ⟨"p", .permanent, 1⟩] },
        fun _ => true⟩).2
    (by decide) rfl ⟨⟨"t", .temporary, 0⟩, by decide⟩ (List.Perm.refl _)
  exact ⟨h.1, h.2.1, h.2.2.1, h.2.2.2.1 ⟨"p", .permanent, 1⟩,
    h.2.2.2.2 ⟨"p", .permanent, 1⟩ (by decide) rfl⟩

end TextualWindow
